import Mathlib

/-!
Verification of the IntelliVest front end (`src/IntellivestFrontEnd.jsx`).

The component is embedded shallowly: the eight `useState` cells become the
fields of `ComponentState`; the `fetch` boundary becomes a transport oracle
`Transport : Request → TransportOutcome`; the `FileReader` boundary becomes a
`ReadOutcome` oracle.  Each action handler (`getSummary`, `askQuestion`,
`handlePortfolioUpload`) is a function from the oracles and the current state
to the settled state together with the list of HTTP requests it issued, so
that "no network call" is the statement that this list is empty.
-/

namespace Intellivest

/-- JSON values, as produced by `response.json()` and consumed via property
access (`data.summary`, `data.answer`, `data.analysis`). -/
inductive Json where
  | null
  | bool (b : Bool)
  | num (n : Int)
  | str (s : String)
  | arr (elems : List Json)
  | obj (fields : List (String × Json))
deriving Repr

/-- Key lookup in a parsed JSON value: `some v` when the value is an object
carrying the key, `none` otherwise.  This is the pure notion used in theorem
statements to say which bodies carry a result field; the JS property access
the handlers perform is `Json.access` below. -/
def Json.getField : Json → String → Option Json
  | .obj fields, key => fields.lookup key
  | _, _ => none

/-- JS property access `data.key` on a parsed JSON value.  On JSON `null` it
throws a TypeError (the exact message text is engine-dependent; its content
is never relied on); on any other non-object value — number, string,
boolean, array — it yields `undefined` (`Except.ok none`); on an object it
yields the property value or `undefined`. -/
def Json.access : Json → String → Except String (Option Json)
  | .null, _key => .error "Cannot read properties of null"
  | j, key => .ok (j.getField key)

/-- The errors that can escape `fetchData`: the `Error` thrown on a non-ok
status, a transport failure from `fetch` itself, and a JSON-decoding failure
from `response.json()`. -/
inductive JsError where
  | httpStatus (status : Nat)
  | transport (msg : String)
  | parse (msg : String)
deriving Repr

/-- The `.message` property of the thrown error.  For the non-ok-status case
the code throws `new Error(\x60HTTP Error! Status: ${response.status}\x60)`. -/
def JsError.message : JsError → String
  | .httpStatus status => "HTTP Error! Status: " ++ toString status
  | .transport msg => msg
  | .parse msg => msg

/-- JS `a || b` on strings: the empty string is falsy, so an empty `.message`
falls back to the handler's generic message. -/
def jsOr (m fallback : String) : String :=
  if m = "" then fallback else m

/-- One HTTP request as `fetchData` issues it: endpoint path appended to the
fixed base URL, the method, and the optional JSON body (serialized at the
`fetch` boundary). -/
structure Request where
  endpoint : String
  method : String
  body : Option Json
deriving Repr

/-- What the `fetch` + `response.json()` boundary yields for a request:
either the transport completed with a status and a body whose JSON decoding
succeeded (`Except.ok`) or failed (`Except.error msg`), or the transport
itself failed (network unreachable, timeout) with a cause. -/
inductive TransportOutcome where
  | completed (status : Nat) (payload : Except String Json)
  | failed (cause : String)
deriving Repr

/-- The environment's deterministic response to each request. -/
def Transport : Type := Request → TransportOutcome

/-- `response.ok`: status in the inclusive range 200–299. -/
def statusOk (status : Nat) : Bool :=
  200 ≤ status && status ≤ 299

/-- The gateway helper `fetchData`.  It checks `response.ok` before reading
the body; a non-ok status throws the status error, a transport failure
propagates, and otherwise the parsed JSON body is returned (a decoding
failure of a 2xx body also throws). -/
def fetchData (transport : Transport) (req : Request) : Except JsError Json :=
  match transport req with
  | .failed cause => .error (.transport cause)
  | .completed status payload =>
    if statusOk status then
      match payload with
      | .ok j => .ok j
      | .error msg => .error (.parse msg)
    else
      .error (.httpStatus status)

/-- The component's `useState` cells.  `summary`, `answer` and
`portfolioAnalysis` hold the JS value last passed to their setter: `some`
a JSON value, with `none` for JS `undefined` (as stored when the response
lacks the accessed field).  `loading` and `error` are single cells shared by
all three sections, exactly as in the source. -/
structure ComponentState where
  ticker : String
  summary : Option Json
  question : String
  answer : Option Json
  portfolioFile : Option String
  portfolioAnalysis : Option Json
  loading : Bool
  error : Option String
deriving Repr

/-- The state at mount: text inputs and results are `''`, the file handle and
the error are `null`, `loading` is `false`. -/
def initState : ComponentState :=
  { ticker := ""
    summary := some (.str "")
    question := ""
    answer := some (.str "")
    portfolioFile := none
    portfolioAnalysis := some (.str "")
    loading := false
    error := none }

/-- JS truthiness of a result cell, as used by the render guards
(`summary && ...`): `undefined`, `null`, `''`, `0` and `false` are falsy. -/
def jsTruthy : Option Json → Bool
  | none => false
  | some .null => false
  | some (.bool b) => b
  | some (.num n) => n != 0
  | some (.str s) => s != ""
  | some (.arr _) => true
  | some (.obj _) => true

/-- The request `getSummary` issues: `GET /summary/{ticker}`, no body. -/
def summaryRequest (ticker : String) : Request :=
  { endpoint := "/summary/" ++ ticker, method := "GET", body := none }

/-- The request `askQuestion` issues: `POST /question` with `{question}`. -/
def questionRequest (question : String) : Request :=
  { endpoint := "/question", method := "POST"
    body := some (.obj [("question", .str question)]) }

/-- The request the upload handler issues after a successful read:
`POST /portfolio/analyze` with `{csvData: text}`. -/
def portfolioRequest (csvData : String) : Request :=
  { endpoint := "/portfolio/analyze", method := "POST"
    body := some (.obj [("csvData", .str csvData)]) }

/-- The state after `setLoading(true); setError(null); setSummary('')` at the
top of `getSummary`, before the request is issued. -/
def summaryLoadingEntry (s : ComponentState) : ComponentState :=
  { s with loading := true, error := none, summary := some (.str "") }

/-- The `getSummary` handler.  The guard is the JS falsy test `!ticker`,
which only the empty string fails.  The property access `data.summary` can
itself throw (body `null`); that throw lands in the same catch block as a
gateway failure. -/
def getSummary (transport : Transport) (s : ComponentState) :
    ComponentState × List Request :=
  if s.ticker = "" then
    ({ s with error := some "Please enter a stock ticker 📊" }, [])
  else
    let s1 := summaryLoadingEntry s
    let req := summaryRequest s.ticker
    match fetchData transport req with
    | .ok data =>
      match data.access "summary" with
      | .ok v => ({ s1 with summary := v, loading := false }, [req])
      | .error msg =>
        ({ s1 with error := some (jsOr msg "Failed to fetch summary")
                   loading := false }, [req])
    | .error e =>
      ({ s1 with error := some (jsOr e.message "Failed to fetch summary")
                 loading := false }, [req])

/-- The state after `setLoading(true); setError(null); setAnswer('')` at the
top of `askQuestion`. -/
def questionLoadingEntry (s : ComponentState) : ComponentState :=
  { s with loading := true, error := none, answer := some (.str "") }

/-- The `askQuestion` handler, guarded by the falsy test `!question`.  As in
`getSummary`, the access `data.answer` may throw into the catch block. -/
def askQuestion (transport : Transport) (s : ComponentState) :
    ComponentState × List Request :=
  if s.question = "" then
    ({ s with error := some "Please enter a question" }, [])
  else
    let s1 := questionLoadingEntry s
    let req := questionRequest s.question
    match fetchData transport req with
    | .ok data =>
      match data.access "answer" with
      | .ok v => ({ s1 with answer := v, loading := false }, [req])
      | .error msg =>
        ({ s1 with error := some (jsOr msg "Failed to get answer")
                   loading := false }, [req])
    | .error e =>
      ({ s1 with error := some (jsOr e.message "Failed to get answer")
                 loading := false }, [req])

/-- What the `FileReader` delivers for the selected file: `onload` with a
string result, `onload` with a non-string `e.target?.result`, or `onerror`. -/
inductive ReadOutcome where
  | loaded (result : Option String)
  | readError
deriving Repr

/-- The state after `setLoading(true); setError(null);
setPortfolioAnalysis('')` at the top of the upload handler. -/
def portfolioLoadingEntry (s : ComponentState) : ComponentState :=
  { s with loading := true, error := none, portfolioAnalysis := some (.str "") }

/-- The `handlePortfolioUpload` handler, including the settling of the
`FileReader` callbacks.  The guard is the falsy test `!portfolioFile`; a
reader error or a non-string result sets an error without any network call. -/
def handlePortfolioUpload (transport : Transport) (readOutcome : ReadOutcome)
    (s : ComponentState) : ComponentState × List Request :=
  match s.portfolioFile with
  | none => ({ s with error := some "Please upload a portfolio file" }, [])
  | some _ =>
    let s1 := portfolioLoadingEntry s
    match readOutcome with
    | .readError =>
      ({ s1 with error := some "Failed to read the file.", loading := false }, [])
    | .loaded none =>
      ({ s1 with error := some "Error reading file", loading := false }, [])
    | .loaded (some text) =>
      let req := portfolioRequest text
      match fetchData transport req with
      | .ok data =>
        match data.access "analysis" with
        | .ok v => ({ s1 with portfolioAnalysis := v, loading := false }, [req])
        | .error msg =>
          ({ s1 with error := some (jsOr msg "Failed to analyze portfolio")
                     loading := false }, [req])
      | .error e =>
        ({ s1 with error := some (jsOr e.message "Failed to analyze portfolio")
                   loading := false }, [req])

/-- The three feature sections of the UI. -/
inductive UISection where
  | summary
  | question
  | portfolio
deriving DecidableEq, Repr

/-- A section's displayed result text. -/
def ComponentState.resultOf (s : ComponentState) : UISection → Option Json
  | .summary => s.summary
  | .question => s.answer
  | .portfolio => s.portfolioAnalysis

/-- A section's displayed loading flag.  In the source all three sections
read the single shared `loading` cell. -/
def ComponentState.loadingOf (s : ComponentState) (_sec : UISection) : Bool :=
  s.loading

/-- A section's displayed error message.  In the source all three sections
feed the single shared `error` cell rendered in one alert. -/
def ComponentState.errorOf (s : ComponentState) (_sec : UISection) : Option String :=
  s.error

/-- Dispatch a section to its action handler. -/
def runAction (sec : UISection) (transport : Transport) (readOutcome : ReadOutcome)
    (s : ComponentState) : ComponentState × List Request :=
  match sec with
  | .summary => getSummary transport s
  | .question => askQuestion transport s
  | .portfolio => handlePortfolioUpload transport readOutcome s

/-- A section's precondition check, as the handlers perform it. -/
def guardPasses (sec : UISection) (s : ComponentState) : Bool :=
  match sec with
  | .summary => s.ticker != ""
  | .question => s.question != ""
  | .portfolio => s.portfolioFile.isSome

/-- The cleared loading-entry state of a section's handler. -/
def loadingEntry (sec : UISection) (s : ComponentState) : ComponentState :=
  match sec with
  | .summary => summaryLoadingEntry s
  | .question => questionLoadingEntry s
  | .portfolio => portfolioLoadingEntry s

/-! ## Concrete fixtures used by witnesses and counterexamples -/

/-- A transport that always answers 200 with `{summary: "Apple Inc. overview"}`. -/
def okSummaryTransport : Transport :=
  fun _ => .completed 200 (.ok (.obj [("summary", .str "Apple Inc. overview")]))

/-- A transport whose body carries all three result fields. -/
def fullTransport : Transport :=
  fun _ => .completed 200 (.ok (.obj
    [("summary", .str "S"), ("answer", .str "A"), ("analysis", .str "P")]))

/-- A transport that always answers 200 with an empty JSON object. -/
def emptyObjTransport : Transport :=
  fun _ => .completed 200 (.ok (.obj []))

/-- A transport where the network itself fails. -/
def offlineTransport : Transport :=
  fun _ => .failed "offline"

/-- A transport that always answers 500. -/
def serverErrorTransport : Transport :=
  fun _ => .completed 500 (.ok .null)

/-- A state with all three required inputs supplied. -/
def readyState : ComponentState :=
  { initState with
      ticker := "AAPL", question := "What is a bond?", portfolioFile := some "p.csv" }

/-- The state reached from a filled-ticker state after the Question section's
guard fails: the shared `error` cell holds the Question section's message. -/
def stateQuestionError : ComponentState :=
  (askQuestion okSummaryTransport { initState with ticker := "AAPL" }).1

/-! ## Frame lemmas: each handler writes only its own result cell,
the shared `loading`/`error` cells, and nothing else -/

theorem getSummary_frame (t : Transport) (s : ComponentState) :
    (getSummary t s).1.ticker = s.ticker ∧
    (getSummary t s).1.question = s.question ∧
    (getSummary t s).1.answer = s.answer ∧
    (getSummary t s).1.portfolioFile = s.portfolioFile ∧
    (getSummary t s).1.portfolioAnalysis = s.portfolioAnalysis := by
  unfold getSummary
  split
  · exact ⟨rfl, rfl, rfl, rfl, rfl⟩
  · dsimp only
    split
    · split <;> exact ⟨rfl, rfl, rfl, rfl, rfl⟩
    · exact ⟨rfl, rfl, rfl, rfl, rfl⟩

theorem askQuestion_frame (t : Transport) (s : ComponentState) :
    (askQuestion t s).1.ticker = s.ticker ∧
    (askQuestion t s).1.question = s.question ∧
    (askQuestion t s).1.summary = s.summary ∧
    (askQuestion t s).1.portfolioFile = s.portfolioFile ∧
    (askQuestion t s).1.portfolioAnalysis = s.portfolioAnalysis := by
  unfold askQuestion
  split
  · exact ⟨rfl, rfl, rfl, rfl, rfl⟩
  · dsimp only
    split
    · split <;> exact ⟨rfl, rfl, rfl, rfl, rfl⟩
    · exact ⟨rfl, rfl, rfl, rfl, rfl⟩

theorem handlePortfolioUpload_frame (t : Transport) (r : ReadOutcome) (s : ComponentState) :
    (handlePortfolioUpload t r s).1.ticker = s.ticker ∧
    (handlePortfolioUpload t r s).1.question = s.question ∧
    (handlePortfolioUpload t r s).1.summary = s.summary ∧
    (handlePortfolioUpload t r s).1.portfolioFile = s.portfolioFile ∧
    (handlePortfolioUpload t r s).1.answer = s.answer := by
  unfold handlePortfolioUpload
  split
  · exact ⟨rfl, rfl, rfl, rfl, rfl⟩
  · split
    · exact ⟨rfl, rfl, rfl, rfl, rfl⟩
    · exact ⟨rfl, rfl, rfl, rfl, rfl⟩
    · dsimp only
      split
      · split <;> exact ⟨rfl, rfl, rfl, rfl, rfl⟩
      · exact ⟨rfl, rfl, rfl, rfl, rfl⟩

/-! ## Claims -/

/-- C1 is refuted on the code: `loading` and `error` are single cells shared
by all three sections, so running the Summary section's action (here: a
successful summary fetch) changes the error message the Question section's
guard failure had set. -/
theorem C1_counterexample :
    (runAction .summary okSummaryTransport (.loaded none) stateQuestionError).1.errorOf .question
      ≠ stateQuestionError.errorOf .question := by
  decide

/-- C1 (amended): each section owns only its `resultText` — running one
section's action never changes a different section's result text — while the
`isLoading` flag and the `errorMessage` are each one cell shared identically
by all three sections, so one section's action may change what the other
sections display as loading flag and error message. -/
theorem C1_amended (s : ComponentState) (t : Transport) (r : ReadOutcome)
    (a b : UISection) (h : a ≠ b) :
    ((runAction a t r s).1).resultOf b = s.resultOf b ∧
    (∀ s' : ComponentState, s'.errorOf a = s'.errorOf b ∧ s'.loadingOf a = s'.loadingOf b) := by
  refine ⟨?_, fun s' => ⟨rfl, rfl⟩⟩
  cases a <;> cases b <;> first
    | exact absurd rfl h
    | exact (getSummary_frame t s).2.2.1
    | exact (getSummary_frame t s).2.2.2.2
    | exact (askQuestion_frame t s).2.2.1
    | exact (askQuestion_frame t s).2.2.2.2
    | exact (handlePortfolioUpload_frame t r s).2.2.1
    | exact (handlePortfolioUpload_frame t r s).2.2.2.2

/-- Witness for the amended C1 at a concrete state and transport. -/
theorem C1_amended_witness :
    ((runAction .summary okSummaryTransport (.loaded none) stateQuestionError).1).resultOf .question
      = stateQuestionError.resultOf .question :=
  (C1_amended stateQuestionError okSummaryTransport (.loaded none) .summary .question
    (by decide)).1

/-- C2 is refuted on the code: the guards are JS falsy tests, so a
whitespace-only ticker `" "` passes `!ticker` and a network call is issued. -/
theorem C2_counterexample :
    ((getSummary okSummaryTransport { initState with ticker := " " }).2).length = 1 :=
  rfl

/-- C2 (amended): for every EMPTY required input — empty ticker, empty
question, or no selected file — submitting the action issues no network call
and leaves `isLoading` false; a whitespace-only text input, however, passes
the falsy guard. -/
theorem C2_amended (s : ComponentState) (t : Transport) (r : ReadOutcome)
    (h : s.loading = false) :
    (s.ticker = "" →
      (getSummary t s).2 = [] ∧ (getSummary t s).1.loading = false) ∧
    (s.question = "" →
      (askQuestion t s).2 = [] ∧ (askQuestion t s).1.loading = false) ∧
    (s.portfolioFile = none →
      (handlePortfolioUpload t r s).2 = [] ∧
      (handlePortfolioUpload t r s).1.loading = false) := by
  refine ⟨fun he => ?_, fun he => ?_, fun he => ?_⟩
  · unfold getSummary
    rw [if_pos he]
    exact ⟨rfl, h⟩
  · unfold askQuestion
    rw [if_pos he]
    exact ⟨rfl, h⟩
  · simp only [handlePortfolioUpload, he]
    exact ⟨trivial, h⟩

/-- Witness for the amended C2 at the mount state. -/
theorem C2_amended_witness :
    (getSummary okSummaryTransport initState).2 = [] ∧
    (getSummary okSummaryTransport initState).1.loading = false :=
  (C2_amended initState okSummaryTransport (.loaded none) rfl).1 rfl

/-- C3 is refuted on the code: the guard message carries a trailing emoji,
`'Please enter a stock ticker 📊'`, so it is not exactly the claimed string. -/
theorem C3_counterexample :
    (getSummary okSummaryTransport initState).1.error
      ≠ some "Please enter a stock ticker" := by
  decide

/-- C3 (amended): submitting the Summary action with an empty ticker sets
the error message to exactly `"Please enter a stock ticker 📊"`. -/
theorem C3_amended (s : ComponentState) (t : Transport) (h : s.ticker = "") :
    (getSummary t s).1.error = some "Please enter a stock ticker 📊" := by
  unfold getSummary
  rw [if_pos h]

/-- Witness for the amended C3 at the mount state. -/
theorem C3_amended_witness :
    (getSummary okSummaryTransport initState).1.error
      = some "Please enter a stock ticker 📊" :=
  C3_amended initState okSummaryTransport rfl

/-- A body carrying a key is an object, so the JS property access cannot
throw: it yields exactly the carried value. -/
theorem Json.access_of_getField_some (j : Json) (key : String) (v : Json)
    (h : j.getField key = some v) : j.access key = .ok (some v) := by
  cases j <;> simp_all [Json.getField, Json.access]

/-- A 2xx transport completion with a well-parsed body makes `fetchData`
return exactly the parsed JSON value. -/
theorem fetchData_ok_of (t : Transport) (req : Request) (status : Nat) (j : Json)
    (ht : t req = .completed status (.ok j)) (hok : statusOk status = true) :
    fetchData t req = .ok j := by
  unfold fetchData
  rw [ht]
  simp [hok]

/-- C4: the gateway returns the status failure on a completed non-2xx
response, the transport failure when the transport itself fails, and the
parsed JSON body on a 2xx response that decodes. -/
theorem C4_gateway (t : Transport) (req : Request) :
    (∀ cause, t req = .failed cause →
      fetchData t req = .error (.transport cause)) ∧
    (∀ status payload, t req = .completed status payload → statusOk status = false →
      fetchData t req = .error (.httpStatus status)) ∧
    (∀ status j, t req = .completed status (.ok j) → statusOk status = true →
      fetchData t req = .ok j) := by
  refine ⟨fun cause h => ?_, fun status payload h hbad => ?_, fun status j h hok => ?_⟩
  · unfold fetchData
    rw [h]
  · unfold fetchData
    rw [h]
    simp [hbad]
  · exact fetchData_ok_of t req status j h hok

/-- Witness for C4 on three concrete transports: network failure, 500, 200. -/
theorem C4_gateway_witness :
    fetchData offlineTransport (summaryRequest "AAPL") = .error (.transport "offline") ∧
    fetchData serverErrorTransport (summaryRequest "AAPL") = .error (.httpStatus 500) ∧
    fetchData okSummaryTransport (summaryRequest "AAPL")
      = .ok (.obj [("summary", .str "Apple Inc. overview")]) :=
  ⟨(C4_gateway offlineTransport (summaryRequest "AAPL")).1 "offline" rfl,
   (C4_gateway serverErrorTransport (summaryRequest "AAPL")).2.1 500 (.ok .null) rfl (by decide),
   (C4_gateway okSummaryTransport (summaryRequest "AAPL")).2.2 200
     (.obj [("summary", .str "Apple Inc. overview")]) rfl (by decide)⟩

/-- C5: for each action, with a non-empty input and a 2xx JSON response
whose body carries the named result field, the settled state holds exactly
that field's value as the section's result and no error message. -/
theorem C5_success (s : ComponentState) (t : Transport) :
    (∀ status j v, statusOk status = true → s.ticker ≠ "" →
      t (summaryRequest s.ticker) = .completed status (.ok j) →
      j.getField "summary" = some v →
      (getSummary t s).1.summary = some v ∧ (getSummary t s).1.error = none) ∧
    (∀ status j v, statusOk status = true → s.question ≠ "" →
      t (questionRequest s.question) = .completed status (.ok j) →
      j.getField "answer" = some v →
      (askQuestion t s).1.answer = some v ∧ (askQuestion t s).1.error = none) ∧
    (∀ status j v text, statusOk status = true → s.portfolioFile.isSome = true →
      t (portfolioRequest text) = .completed status (.ok j) →
      j.getField "analysis" = some v →
      (handlePortfolioUpload t (.loaded (some text)) s).1.portfolioAnalysis = some v ∧
      (handlePortfolioUpload t (.loaded (some text)) s).1.error = none) := by
  refine ⟨fun status j v hok hne ht hv => ?_,
          fun status j v hok hne ht hv => ?_,
          fun status j v text hok hne ht hv => ?_⟩
  · unfold getSummary
    rw [if_neg hne]
    dsimp only
    rw [fetchData_ok_of t _ status j ht hok]
    simp [summaryLoadingEntry, Json.access_of_getField_some j "summary" v hv]
  · unfold askQuestion
    rw [if_neg hne]
    dsimp only
    rw [fetchData_ok_of t _ status j ht hok]
    simp [questionLoadingEntry, Json.access_of_getField_some j "answer" v hv]
  · obtain ⟨f, hf⟩ := Option.isSome_iff_exists.mp hne
    unfold handlePortfolioUpload
    rw [hf]
    dsimp only
    rw [fetchData_ok_of t _ status j ht hok]
    simp [portfolioLoadingEntry, Json.access_of_getField_some j "analysis" v hv]

/-- Witness for C5: all three actions against a body carrying all three
fields, from a state with all three inputs supplied. -/
theorem C5_success_witness :
    ((getSummary fullTransport readyState).1.summary = some (.str "S") ∧
      (getSummary fullTransport readyState).1.error = none) ∧
    ((askQuestion fullTransport readyState).1.answer = some (.str "A") ∧
      (askQuestion fullTransport readyState).1.error = none) ∧
    ((handlePortfolioUpload fullTransport (.loaded (some "a,1")) readyState).1.portfolioAnalysis
        = some (.str "P") ∧
      (handlePortfolioUpload fullTransport (.loaded (some "a,1")) readyState).1.error = none) :=
  ⟨(C5_success readyState fullTransport).1 200 _ _ (by decide) (by decide) rfl rfl,
   (C5_success readyState fullTransport).2.1 200 _ _ (by decide) (by decide) rfl rfl,
   (C5_success readyState fullTransport).2.2 200 _ _ "a,1" (by decide) rfl rfl rfl⟩

/-- C6: whenever a submission passes its guard, the settled state has
`isLoading = false`, through every outcome: gateway success, gateway
failure, and (for the upload) file-read failure. -/
theorem C6_loading_cleared (s : ComponentState) (t : Transport) (r : ReadOutcome)
    (sec : UISection) (h : guardPasses sec s = true) :
    (runAction sec t r s).1.loading = false := by
  cases sec with
  | summary =>
    have hne : ¬ s.ticker = "" := by simpa [guardPasses] using h
    simp only [runAction]
    unfold getSummary
    rw [if_neg hne]
    dsimp only
    split
    · split <;> rfl
    · rfl
  | question =>
    have hne : ¬ s.question = "" := by simpa [guardPasses] using h
    simp only [runAction]
    unfold askQuestion
    rw [if_neg hne]
    dsimp only
    split
    · split <;> rfl
    · rfl
  | portfolio =>
    obtain ⟨f, hf⟩ := Option.isSome_iff_exists.mp (by simpa [guardPasses] using h)
    simp only [runAction]
    unfold handlePortfolioUpload
    rw [hf]
    dsimp only
    split
    · rfl
    · rfl
    · split
      · split <;> rfl
      · rfl

/-- Witness for C6: the Summary action at a filled state over a failing
transport still settles with the loading flag false. -/
theorem C6_loading_cleared_witness :
    (runAction .summary offlineTransport (.loaded none) readyState).1.loading = false :=
  C6_loading_cleared readyState offlineTransport (.loaded none) .summary (by decide)

/-- C7: a submission that passes its guard enters the loading state with the
section's result text cleared to `''` and the error message cleared to
absent, and after the request settles the section never shows both a truthy
result text and an error message. -/
theorem C7_clear_then_exclusive (s : ComponentState) (t : Transport) (r : ReadOutcome)
    (sec : UISection) (h : guardPasses sec s = true) :
    ((loadingEntry sec s).resultOf sec = some (Json.str "") ∧
      (loadingEntry sec s).errorOf sec = none) ∧
    (jsTruthy ((runAction sec t r s).1.resultOf sec) = true →
      (runAction sec t r s).1.errorOf sec = none) := by
  constructor
  · cases sec <;> exact ⟨rfl, rfl⟩
  · cases sec with
    | summary =>
      have hne : ¬ s.ticker = "" := by simpa [guardPasses] using h
      simp only [runAction, ComponentState.resultOf, ComponentState.errorOf]
      unfold getSummary
      rw [if_neg hne]
      dsimp only
      split
      · split
        · exact fun _ => rfl
        · intro hcontra
          simp [summaryLoadingEntry, jsTruthy] at hcontra
      · intro hcontra
        simp [summaryLoadingEntry, jsTruthy] at hcontra
    | question =>
      have hne : ¬ s.question = "" := by simpa [guardPasses] using h
      simp only [runAction, ComponentState.resultOf, ComponentState.errorOf]
      unfold askQuestion
      rw [if_neg hne]
      dsimp only
      split
      · split
        · exact fun _ => rfl
        · intro hcontra
          simp [questionLoadingEntry, jsTruthy] at hcontra
      · intro hcontra
        simp [questionLoadingEntry, jsTruthy] at hcontra
    | portfolio =>
      obtain ⟨f, hf⟩ := Option.isSome_iff_exists.mp (by simpa [guardPasses] using h)
      simp only [runAction, ComponentState.resultOf, ComponentState.errorOf]
      unfold handlePortfolioUpload
      rw [hf]
      dsimp only
      split
      · intro hcontra
        simp [portfolioLoadingEntry, jsTruthy] at hcontra
      · intro hcontra
        simp [portfolioLoadingEntry, jsTruthy] at hcontra
      · split
        · split
          · exact fun _ => rfl
          · intro hcontra
            simp [portfolioLoadingEntry, jsTruthy] at hcontra
        · intro hcontra
          simp [portfolioLoadingEntry, jsTruthy] at hcontra

/-- Witness for C7: the Question action at a filled state over a 500
transport. -/
theorem C7_clear_then_exclusive_witness :
    ((loadingEntry .question readyState).resultOf .question = some (Json.str "") ∧
      (loadingEntry .question readyState).errorOf .question = none) ∧
    (jsTruthy ((runAction .question serverErrorTransport (.loaded none) readyState).1.resultOf
        .question) = true →
      (runAction .question serverErrorTransport (.loaded none) readyState).1.errorOf
        .question = none) :=
  C7_clear_then_exclusive readyState serverErrorTransport (.loaded none) .question (by decide)

/-- C8: with a file selected, a reader error settles with the message
`"Failed to read the file."`, a non-string read result with
`"Error reading file"`; in both cases the loading flag ends false and no
network request is issued. -/
theorem C8_read_failure (s : ComponentState) (t : Transport)
    (h : s.portfolioFile.isSome = true) :
    ((handlePortfolioUpload t .readError s).1.error = some "Failed to read the file." ∧
      (handlePortfolioUpload t .readError s).1.loading = false ∧
      (handlePortfolioUpload t .readError s).2 = []) ∧
    ((handlePortfolioUpload t (.loaded none) s).1.error = some "Error reading file" ∧
      (handlePortfolioUpload t (.loaded none) s).1.loading = false ∧
      (handlePortfolioUpload t (.loaded none) s).2 = []) := by
  obtain ⟨f, hf⟩ := Option.isSome_iff_exists.mp h
  unfold handlePortfolioUpload
  rw [hf]
  exact ⟨⟨rfl, rfl, rfl⟩, ⟨rfl, rfl, rfl⟩⟩

/-- Witness for C8 with a concrete selected file. -/
theorem C8_read_failure_witness :
    ((handlePortfolioUpload fullTransport .readError readyState).1.error
        = some "Failed to read the file." ∧
      (handlePortfolioUpload fullTransport .readError readyState).1.loading = false ∧
      (handlePortfolioUpload fullTransport .readError readyState).2 = []) ∧
    ((handlePortfolioUpload fullTransport (.loaded none) readyState).1.error
        = some "Error reading file" ∧
      (handlePortfolioUpload fullTransport (.loaded none) readyState).1.loading = false ∧
      (handlePortfolioUpload fullTransport (.loaded none) readyState).2 = []) :=
  C8_read_failure readyState fullTransport rfl

/-- A transport that answers every request with 200 and the fixed JSON
body `j`: the environment of a repeated identical successful call. -/
def constSuccessTransport (j : Json) : Transport :=
  fun _ => .completed 200 (.ok j)

theorem fetchData_constSuccess (j : Json) (req : Request) :
    fetchData (constSuccessTransport j) req = .ok j :=
  rfl

/-- C9: against a fixed successful backend response, running an action a
second time leaves the section's result text exactly what the first run
produced — each call replaces the previous result rather than appending. -/
theorem C9_replaces (s : ComponentState) (j : Json) (r : ReadOutcome) :
    (getSummary (constSuccessTransport j) ((getSummary (constSuccessTransport j) s).1)).1.summary
      = (getSummary (constSuccessTransport j) s).1.summary ∧
    (askQuestion (constSuccessTransport j) ((askQuestion (constSuccessTransport j) s).1)).1.answer
      = (askQuestion (constSuccessTransport j) s).1.answer ∧
    (handlePortfolioUpload (constSuccessTransport j) r
        ((handlePortfolioUpload (constSuccessTransport j) r s).1)).1.portfolioAnalysis
      = (handlePortfolioUpload (constSuccessTransport j) r s).1.portfolioAnalysis := by
  refine ⟨?_, ?_, ?_⟩
  · by_cases hne : s.ticker = ""
    · simp [getSummary, hne]
    · cases ha : j.access "summary" <;>
        simp [getSummary, hne, fetchData_constSuccess, ha, summaryLoadingEntry]
  · by_cases hne : s.question = ""
    · simp [askQuestion, hne]
    · cases ha : j.access "answer" <;>
        simp [askQuestion, hne, fetchData_constSuccess, ha, questionLoadingEntry]
  · cases hpf : s.portfolioFile with
    | none => simp [handlePortfolioUpload, hpf]
    | some f =>
      cases r with
      | readError => simp [handlePortfolioUpload, hpf, portfolioLoadingEntry]
      | loaded o =>
        cases o with
        | none => simp [handlePortfolioUpload, hpf, portfolioLoadingEntry]
        | some text =>
          cases ha : j.access "analysis" <;>
            simp [handlePortfolioUpload, hpf, fetchData_constSuccess, ha,
              portfolioLoadingEntry]

/-- A transport that answers every request with 200 and the JSON body
`null` — a well-formed body that lacks every field, on which JS property
access throws. -/
def nullBodyTransport : Transport :=
  fun _ => .completed 200 (.ok .null)

/-- C10 is refuted on the code: a 200 response whose body is JSON `null`
lacks the named field, yet `data.summary` throws a TypeError that the catch
block surfaces as an error message, so the action does not complete with
`errorMessage` absent. -/
theorem C10_counterexample :
    (getSummary nullBodyTransport readyState).1.error ≠ none := by
  decide

/-- C10 (amended): for each action, a 2xx response whose JSON body lacks the
named result field AND on which the property access yields `undefined`
without throwing (any body other than JSON `null`) settles without any error
message: the result cell holds JS `undefined` (absent) and the loading flag
ends false.  A body of JSON `null` instead lands in the catch block and sets
the error message. -/
theorem C10_missing_field (s : ComponentState) (t : Transport) :
    (∀ status j, statusOk status = true → s.ticker ≠ "" →
      t (summaryRequest s.ticker) = .completed status (.ok j) →
      j.access "summary" = .ok none →
      (getSummary t s).1.summary = none ∧ (getSummary t s).1.error = none ∧
      (getSummary t s).1.loading = false) ∧
    (∀ status j, statusOk status = true → s.question ≠ "" →
      t (questionRequest s.question) = .completed status (.ok j) →
      j.access "answer" = .ok none →
      (askQuestion t s).1.answer = none ∧ (askQuestion t s).1.error = none ∧
      (askQuestion t s).1.loading = false) ∧
    (∀ status j text, statusOk status = true → s.portfolioFile.isSome = true →
      t (portfolioRequest text) = .completed status (.ok j) →
      j.access "analysis" = .ok none →
      (handlePortfolioUpload t (.loaded (some text)) s).1.portfolioAnalysis = none ∧
      (handlePortfolioUpload t (.loaded (some text)) s).1.error = none ∧
      (handlePortfolioUpload t (.loaded (some text)) s).1.loading = false) := by
  refine ⟨fun status j hok hne ht hv => ?_,
          fun status j hok hne ht hv => ?_,
          fun status j text hok hne ht hv => ?_⟩
  · unfold getSummary
    rw [if_neg hne]
    dsimp only
    rw [fetchData_ok_of t _ status j ht hok]
    simp [summaryLoadingEntry, hv]
  · unfold askQuestion
    rw [if_neg hne]
    dsimp only
    rw [fetchData_ok_of t _ status j ht hok]
    simp [questionLoadingEntry, hv]
  · obtain ⟨f, hf⟩ := Option.isSome_iff_exists.mp hne
    unfold handlePortfolioUpload
    rw [hf]
    dsimp only
    rw [fetchData_ok_of t _ status j ht hok]
    simp [portfolioLoadingEntry, hv]

/-- Witness for C10: all three actions against a 200 response whose body is
the empty JSON object. -/
theorem C10_missing_field_witness :
    ((getSummary emptyObjTransport readyState).1.summary = none ∧
      (getSummary emptyObjTransport readyState).1.error = none ∧
      (getSummary emptyObjTransport readyState).1.loading = false) ∧
    ((askQuestion emptyObjTransport readyState).1.answer = none ∧
      (askQuestion emptyObjTransport readyState).1.error = none ∧
      (askQuestion emptyObjTransport readyState).1.loading = false) ∧
    ((handlePortfolioUpload emptyObjTransport (.loaded (some "a,1")) readyState).1.portfolioAnalysis
        = none ∧
      (handlePortfolioUpload emptyObjTransport (.loaded (some "a,1")) readyState).1.error = none ∧
      (handlePortfolioUpload emptyObjTransport (.loaded (some "a,1")) readyState).1.loading
        = false) :=
  ⟨(C10_missing_field readyState emptyObjTransport).1 200 (.obj []) (by decide) (by decide) rfl rfl,
   (C10_missing_field readyState emptyObjTransport).2.1 200 (.obj []) (by decide) (by decide)
     rfl rfl,
   (C10_missing_field readyState emptyObjTransport).2.2 200 (.obj []) "a,1" (by decide) rfl
     rfl rfl⟩

end Intellivest
